import Mathlib

/-!
Verification of the telemetry sampler and overlay renderer of
`telemetry_overlay.py` (class `IRacingTelemetry` and the plotting logic of
`ApplicationWindow.update_plot`).

Floats of the source are modelled as rationals (`ℚ`); the numpy arrays as
`List ℚ`.  `np.roll (x, -1)` becomes `np_roll`, the assignment `x[-1] = v`
becomes `set_last`, and the reads `x[-1]` / `x[-2]` become `getLast` /
`getPenult`.
-/

set_option maxRecDepth 100000

namespace TelemetryOverlay

/-- `self.history_length = 200` set in `IRacingTelemetry.__init__`. -/
def history_length : ℕ := 200

/-- One batch of instantaneous readings from the telemetry source:
`self.ir['Throttle']`, `self.ir['Brake']`, `self.ir['Steer']`,
`self.ir['Speed']`, `self.ir['Gear']`, `self.ir['SessionTime']`. -/
structure TelemetryInput where
  throttle : ℚ
  brake : ℚ
  steer : ℚ
  speed : ℚ
  gear : ℚ
  sessionTime : ℚ
deriving Repr, DecidableEq

/-- The seven rolling windows held by `IRacingTelemetry`. -/
structure TelemetryState where
  throttle : List ℚ
  brake : List ℚ
  steer : List ℚ
  speed : List ℚ
  gear : List ℚ
  distance : List ℚ
  time : List ℚ
deriving Repr, DecidableEq

/-- `np.roll(x, -1)`: rotate left by one. -/
def np_roll (l : List ℚ) : List ℚ := l.drop 1 ++ l.take 1

/-- The assignment `x[-1] = v`. -/
def set_last (l : List ℚ) (v : ℚ) : List ℚ := l.dropLast ++ [v]

/-- The read `x[-1]`. -/
def getLast (l : List ℚ) : ℚ := l.getLastD 0

/-- The read `x[-2]`. -/
def getPenult (l : List ℚ) : ℚ := l.dropLast.getLastD 0

/-- `IRacingTelemetry.reset_data`: all seven windows become
`np.zeros(self.history_length)`. -/
def reset_data : TelemetryState where
  throttle := List.replicate history_length 0
  brake := List.replicate history_length 0
  steer := List.replicate history_length 0
  speed := List.replicate history_length 0
  gear := List.replicate history_length 0
  distance := List.replicate history_length 0
  time := List.replicate history_length 0

/-- `IRacingTelemetry.update`: on a disconnected tick, `reset_data()`;
on a connected tick, roll every window left by one, overwrite the last
entry of the six source-fed windows with the fresh readings, and then
recompute the last distance entry from the time delta and the new speed. -/
def update (connected : Bool) (inp : TelemetryInput) (s : TelemetryState) :
    TelemetryState :=
  if !connected then
    reset_data
  else
    let throttle := set_last (np_roll s.throttle) inp.throttle
    let brake := set_last (np_roll s.brake) inp.brake
    let steer := set_last (np_roll s.steer) inp.steer
    let speed := set_last (np_roll s.speed) inp.speed
    let gear := set_last (np_roll s.gear) inp.gear
    let time := set_last (np_roll s.time) inp.sessionTime
    let distance0 := np_roll s.distance
    let distance :=
      if 1 < time.length then
        let time_delta := getLast time - getPenult time
        if 0 < getLast speed then
          set_last distance0 (getPenult distance0 + getLast speed * time_delta)
        else
          set_last distance0 (getPenult distance0)
      else
        distance0
    { throttle := throttle, brake := brake, steer := steer, speed := speed,
      gear := gear, distance := distance, time := time }

/-- All seven windows have the declared history length. -/
def WF (s : TelemetryState) : Prop :=
  s.throttle.length = history_length ∧
  s.brake.length = history_length ∧
  s.steer.length = history_length ∧
  s.speed.length = history_length ∧
  s.gear.length = history_length ∧
  s.distance.length = history_length ∧
  s.time.length = history_length

instance (s : TelemetryState) : Decidable (WF s) := by
  unfold WF; infer_instance

/-- Element `i` of a window (0 default, windows always have full length). -/
def nth (l : List ℚ) (i : ℕ) : ℚ := l.getD i 0

/-- States reachable from startup by any sequence of ticks, with arbitrary
source readings on connected ticks. -/
inductive Reachable : TelemetryState → Prop
  | init : Reachable reset_data
  | disc (s : TelemetryState) (inp : TelemetryInput) :
      Reachable s → Reachable (update false inp s)
  | conn (s : TelemetryState) (inp : TelemetryInput) :
      Reachable s → Reachable (update true inp s)

/-- States reachable from startup when the telemetry source honours its
documented contract that `SessionTime` is monotonic: every connected tick
reads a session time at least the last stored one. -/
inductive ReachableMono : TelemetryState → Prop
  | init : ReachableMono reset_data
  | disc (s : TelemetryState) (inp : TelemetryInput) :
      ReachableMono s → ReachableMono (update false inp s)
  | conn (s : TelemetryState) (inp : TelemetryInput) :
      ReachableMono s → getLast s.time ≤ inp.sessionTime →
      ReachableMono (update true inp s)

/-! ### Basic list manipulation lemmas -/

lemma set_last_np_roll (a : ℚ) (as : List ℚ) (v : ℚ) :
    set_last (np_roll (a :: as)) v = as ++ [v] := by
  simp [set_last, np_roll]

lemma getLast_append (as : List ℚ) (v : ℚ) : getLast (as ++ [v]) = v := by
  simp [getLast]

lemma getLast_set_last (l : List ℚ) (v : ℚ) : getLast (set_last l v) = v := by
  simp [getLast, set_last]

lemma set_last_append (l : List ℚ) (a v : ℚ) : set_last (l ++ [a]) v = l ++ [v] := by
  simp [set_last]

lemma getPenult_append (as : List ℚ) (v : ℚ) : getPenult (as ++ [v]) = getLast as := by
  simp [getPenult, getLast]

lemma getLast_cons_ne (a : ℚ) (as : List ℚ) (h : as ≠ []) :
    getLast (a :: as) = getLast as := by
  cases as with
  | nil => exact absurd rfl h
  | cons b bs => rfl

lemma np_roll_cons (a : ℚ) (as : List ℚ) : np_roll (a :: as) = as ++ [a] := by
  simp [np_roll]

lemma cons_of_wf (l : List ℚ) (h : l.length = history_length) :
    ∃ a as, l = a :: as ∧ as ≠ [] := by
  cases l with
  | nil => simp [history_length] at h
  | cons a as =>
    cases as with
    | nil => simp [history_length] at h
    | cons b bs => exact ⟨a, b :: bs, rfl, by simp⟩

/-! ### Closed form of a connected `update` on a well-formed state -/

/-- On any state whose seven windows have full length, a connected `update`
drops the head of each window and appends the fresh reading, the appended
distance entry being computed from the previous last distance, the new
speed, and the session-time delta. -/
lemma update_conn (s : TelemetryState) (inp : TelemetryInput) (h : WF s) :
    update true inp s =
      { throttle := s.throttle.drop 1 ++ [inp.throttle]
        brake := s.brake.drop 1 ++ [inp.brake]
        steer := s.steer.drop 1 ++ [inp.steer]
        speed := s.speed.drop 1 ++ [inp.speed]
        gear := s.gear.drop 1 ++ [inp.gear]
        distance := s.distance.drop 1 ++
          [if 0 < inp.speed then
              getLast s.distance + inp.speed * (inp.sessionTime - getLast s.time)
            else getLast s.distance]
        time := s.time.drop 1 ++ [inp.sessionTime] }
    := by
  obtain ⟨h1, h2, h3, h4, h5, h6, h7⟩ := h
  obtain ⟨a1, l1, e1, n1⟩ := cons_of_wf s.throttle h1
  obtain ⟨a2, l2, e2, n2⟩ := cons_of_wf s.brake h2
  obtain ⟨a3, l3, e3, n3⟩ := cons_of_wf s.steer h3
  obtain ⟨a4, l4, e4, n4⟩ := cons_of_wf s.speed h4
  obtain ⟨a5, l5, e5, n5⟩ := cons_of_wf s.gear h5
  obtain ⟨a6, l6, e6, n6⟩ := cons_of_wf s.distance h6
  obtain ⟨a7, l7, e7, n7⟩ := cons_of_wf s.time h7
  have hlen : 1 < (set_last (np_roll s.time) inp.sessionTime).length := by
    rw [e7, set_last_np_roll]
    rw [e7] at h7
    simp at h7
    simp [h7, history_length]
  simp only [update, Bool.not_true, if_neg (by simp : ¬ (false = true))]
  simp only [if_pos hlen]
  rw [e1, e2, e3, e4, e5, e6, e7]
  simp only [set_last_np_roll, np_roll_cons, getLast_append, getPenult_append,
    List.drop_one, List.tail_cons]
  rw [getLast_cons_ne a6 l6 n6, getLast_cons_ne a7 l7 n7]
  rw [getLast_set_last]
  split
  · simp [set_last_append, getLast_append, getPenult_append]
  · simp [set_last_append]

/-! ### Well-formedness is preserved -/

lemma wf_reset : WF reset_data := by
  refine ⟨?_, ?_, ?_, ?_, ?_, ?_, ?_⟩ <;> simp [reset_data]

lemma length_shift (l : List ℚ) (v : ℚ) (h : l.length = history_length) :
    (l.drop 1 ++ [v]).length = history_length := by
  simp [h, history_length]

lemma wf_update (connected : Bool) (inp : TelemetryInput) (s : TelemetryState)
    (h : WF s) : WF (update connected inp s) := by
  cases connected with
  | false => exact wf_reset
  | true =>
    obtain ⟨h1, h2, h3, h4, h5, h6, h7⟩ := h
    rw [update_conn s inp ⟨h1, h2, h3, h4, h5, h6, h7⟩]
    exact ⟨length_shift _ _ h1, length_shift _ _ h2, length_shift _ _ h3,
      length_shift _ _ h4, length_shift _ _ h5, length_shift _ _ h6,
      length_shift _ _ h7⟩

lemma reachable_wf (s : TelemetryState) (h : Reachable s) : WF s := by
  induction h with
  | init => exact wf_reset
  | disc s inp _ ih => exact wf_update false inp s ih
  | conn s inp _ ih => exact wf_update true inp s ih

lemma reachableMono_wf (s : TelemetryState) (h : ReachableMono s) : WF s := by
  induction h with
  | init => exact wf_reset
  | disc s inp _ ih => exact wf_update false inp s ih
  | conn s inp _ _ ih => exact wf_update true inp s ih

/-! ### Index-level view of the shift-and-append step -/

lemma update_disc (inp : TelemetryInput) (s : TelemetryState) :
    update false inp s = reset_data := by
  simp [update]

lemma nth_shift (l : List ℚ) (v : ℚ) (h : l.length = history_length)
    (i : ℕ) (hi : i + 1 < history_length) :
    nth (l.drop 1 ++ [v]) i = nth l (i + 1) := by
  unfold nth
  rw [List.getD_eq_getElem?_getD, List.getD_eq_getElem?_getD]
  rw [List.getElem?_append_left (by simp [h]; omega), List.getElem?_drop]
  rw [Nat.add_comm 1 i]

lemma nth_append_last (l : List ℚ) (v : ℚ) (h : l.length = history_length) :
    nth (l.drop 1 ++ [v]) (history_length - 1) = v := by
  unfold nth
  rw [List.getD_eq_getElem?_getD]
  rw [List.getElem?_append_right (by simp [h])]
  simp [h]

lemma getLast_eq_nth (l : List ℚ) (h : l.length = history_length) :
    getLast l = nth l (history_length - 1) := by
  unfold getLast nth
  rw [List.getLastD_eq_getLast?, List.getLast?_eq_getElem?, h,
    List.getD_eq_getElem?_getD]

lemma nth_replicate (i : ℕ) :
    nth (List.replicate history_length (0 : ℚ)) i = 0 := by
  unfold nth
  rw [List.getD_eq_getElem?_getD, List.getElem?_replicate]
  split <;> rfl

lemma getLast_replicate : getLast (List.replicate history_length (0 : ℚ)) = 0 := by
  rw [getLast_eq_nth _ (by simp), nth_replicate]

/-- The pairwise monotonicity invariant: wherever the speed sample at a
slot is positive, the distance sample did not decrease from the previous
slot. -/
def distance_mono (s : TelemetryState) : Prop :=
  ∀ i, i + 1 < history_length → 0 < nth s.speed (i + 1) →
    nth s.distance i ≤ nth s.distance (i + 1)

lemma distance_mono_reset : distance_mono reset_data := by
  intro i hi _
  show nth (List.replicate history_length 0) i ≤
    nth (List.replicate history_length 0) (i + 1)
  rw [nth_replicate, nth_replicate]

lemma distance_mono_step (s : TelemetryState) (inp : TelemetryInput)
    (hwf : WF s) (hmono : distance_mono s)
    (ht : getLast s.time ≤ inp.sessionTime) :
    distance_mono (update true inp s) := by
  obtain ⟨h1, h2, h3, h4, h5, h6, h7⟩ := hwf
  rw [update_conn s inp ⟨h1, h2, h3, h4, h5, h6, h7⟩]
  intro i hi hsp
  simp only at hsp ⊢
  have hi200 : i + 1 < 200 := hi
  by_cases hlt : i + 1 < 199
  · rw [nth_shift _ _ h4 (i + 1) (show i + 1 + 1 < 200 by omega)] at hsp
    rw [nth_shift _ _ h6 i (show i + 1 < 200 by omega),
      nth_shift _ _ h6 (i + 1) (show i + 1 + 1 < 200 by omega)]
    exact hmono (i + 1) (show i + 1 + 1 < 200 by omega) hsp
  · have hieq : i + 1 = history_length - 1 := by
      show i + 1 = 199
      omega
    rw [hieq] at hsp ⊢
    rw [nth_append_last _ _ h4] at hsp
    rw [nth_append_last _ _ h6]
    have hsh : nth (s.distance.drop 1 ++
        [if 0 < inp.speed then
            getLast s.distance + inp.speed * (inp.sessionTime - getLast s.time)
          else getLast s.distance]) i = getLast s.distance := by
      rw [nth_shift _ _ h6 i (show i + 1 < 200 by omega)]
      rw [getLast_eq_nth _ h6]
      congr 1
    rw [hsh, if_pos hsp]
    have hdt : 0 ≤ inp.sessionTime - getLast s.time := by linarith
    have hmul : 0 ≤ inp.speed * (inp.sessionTime - getLast s.time) :=
      mul_nonneg (le_of_lt hsp) hdt
    linarith

lemma reachableMono_distance_mono (s : TelemetryState) (h : ReachableMono s) :
    distance_mono s := by
  induction h with
  | init => exact distance_mono_reset
  | disc s inp _ _ =>
    rw [update_disc]
    exact distance_mono_reset
  | conn s inp hr ht ih =>
    exact distance_mono_step s inp (reachableMono_wf s hr) ih ht

/-- The five visibility checkboxes of `ApplicationWindow`
(`throttle_checkbox` .. `gear_checkbox`). -/
structure PlotConfig where
  throttle : Bool
  brake : Bool
  steer : Bool
  speed : Bool
  gear : Bool
deriving Repr, DecidableEq

/-- `(self.telemetry.steer + 1) * 0.5` in `update_plot`. -/
def steer_normalized (x : ℚ) : ℚ := (x + 1) * 0.5

/-- `self.telemetry.speed / 83.33` in `update_plot`. -/
def speed_normalized (x : ℚ) : ℚ := x / 83.33

/-- `self.telemetry.gear / 6.0` in `update_plot`. -/
def gear_normalized (x : ℚ) : ℚ := x / 6.0

/-- The x-axis limits chosen at the end of `update_plot`:
scroll once `self.telemetry.distance[-1] > 150`, else `(0, 300)`. -/
def set_xlim (distance : List ℚ) : ℚ × ℚ :=
  if 150 < getLast distance then
    (getLast distance - 150, getLast distance + 150)
  else
    (0, 300)

/-- What `update_plot` draws: per checkbox, the (x, y) series handed to
`ax.plot`, plus the x-axis limits. -/
structure RenderOutput where
  throttlePlot : Option (List ℚ × List ℚ)
  brakePlot : Option (List ℚ × List ℚ)
  steerPlot : Option (List ℚ × List ℚ)
  speedPlot : Option (List ℚ × List ℚ)
  gearPlot : Option (List ℚ × List ℚ)
  xlim : ℚ × ℚ
deriving Repr, DecidableEq

/-- The plotting part of `ApplicationWindow.update_plot`, applied to a
sampler state. -/
def render (cfg : PlotConfig) (s : TelemetryState) : RenderOutput where
  throttlePlot := if cfg.throttle then some (s.distance, s.throttle) else none
  brakePlot := if cfg.brake then some (s.distance, s.brake) else none
  steerPlot :=
    if cfg.steer then some (s.distance, s.steer.map steer_normalized) else none
  speedPlot :=
    if cfg.speed then some (s.distance, s.speed.map speed_normalized) else none
  gearPlot :=
    if cfg.gear then some (s.distance, s.gear.map gear_normalized) else none
  xlim := set_xlim s.distance

/-- One full tick of `ApplicationWindow.update_plot`:
`self.telemetry.update()` followed by the redraw.  Returns the new sampler
state together with what was drawn. -/
def update_plot (cfg : PlotConfig) (connected : Bool) (inp : TelemetryInput)
    (s : TelemetryState) : TelemetryState × RenderOutput :=
  let s' := update connected inp s
  (s', render cfg s')

/-! ### Concrete inputs and states used to instantiate the theorems -/

/-- A generic batch of readings. -/
def sample_input : TelemetryInput :=
  { throttle := 1, brake := 2, steer := 3, speed := 4, gear := 5, sessionTime := 6 }

/-- Readings with the car stationary. -/
def stopped_input : TelemetryInput :=
  { throttle := 0, brake := 0, steer := 0, speed := 0, gear := 0, sessionTime := 1 }

/-- Readings with the car moving at 1 m/s at session time 1 s. -/
def moving_input : TelemetryInput :=
  { throttle := 0, brake := 0, steer := 0, speed := 1, gear := 1, sessionTime := 1 }

/-- Readings whose session time repeats the stored one (dt = 0). -/
def zero_dt_input : TelemetryInput :=
  { throttle := 0, brake := 0, steer := 0, speed := 5, gear := 0, sessionTime := 0 }

/-- All five checkboxes ticked (the default). -/
def allOn : PlotConfig :=
  { throttle := true, brake := true, steer := true, speed := true, gear := true }

/-- A state whose last distance entry is 400 m (past the scroll threshold). -/
def far_state : TelemetryState :=
  { reset_data with distance := List.replicate 199 0 ++ [400] }

/-! ### The claims -/

/-- C1: if the telemetry source reports disconnected at a tick, then after
`update()` all seven rolling windows (throttle, brake, steer, speed, gear,
distance, time) equal a zero-filled sequence of length 200, regardless of
their prior contents. -/
theorem C1_disconnect_resets (inp : TelemetryInput) (s : TelemetryState) :
    (update false inp s).throttle = List.replicate 200 0 ∧
    (update false inp s).brake = List.replicate 200 0 ∧
    (update false inp s).steer = List.replicate 200 0 ∧
    (update false inp s).speed = List.replicate 200 0 ∧
    (update false inp s).gear = List.replicate 200 0 ∧
    (update false inp s).distance = List.replicate 200 0 ∧
    (update false inp s).time = List.replicate 200 0 := by
  rw [update_disc]
  exact ⟨rfl, rfl, rfl, rfl, rfl, rfl, rfl⟩

/-- C2: for every prior (well-formed) state and every connected tick,
`update()` transforms each of the seven rolling windows into the old window
with its index-0 (oldest) element dropped and one new element appended at
the end, leaving the length unchanged. -/
theorem C2_fifo_step (s : TelemetryState) (inp : TelemetryInput) (h : WF s) :
    (update true inp s).throttle = s.throttle.drop 1 ++ [inp.throttle] ∧
    (update true inp s).brake = s.brake.drop 1 ++ [inp.brake] ∧
    (update true inp s).steer = s.steer.drop 1 ++ [inp.steer] ∧
    (update true inp s).speed = s.speed.drop 1 ++ [inp.speed] ∧
    (update true inp s).gear = s.gear.drop 1 ++ [inp.gear] ∧
    (update true inp s).distance = s.distance.drop 1 ++
      [if 0 < inp.speed then
          getLast s.distance + inp.speed * (inp.sessionTime - getLast s.time)
        else getLast s.distance] ∧
    (update true inp s).time = s.time.drop 1 ++ [inp.sessionTime] ∧
    (update true inp s).throttle.length = s.throttle.length ∧
    (update true inp s).brake.length = s.brake.length ∧
    (update true inp s).steer.length = s.steer.length ∧
    (update true inp s).speed.length = s.speed.length ∧
    (update true inp s).gear.length = s.gear.length ∧
    (update true inp s).distance.length = s.distance.length ∧
    (update true inp s).time.length = s.time.length := by
  obtain ⟨h1, h2, h3, h4, h5, h6, h7⟩ := h
  rw [update_conn s inp ⟨h1, h2, h3, h4, h5, h6, h7⟩]
  refine ⟨rfl, rfl, rfl, rfl, rfl, rfl, rfl, ?_, ?_, ?_, ?_, ?_, ?_, ?_⟩
  · simp [h1, history_length]
  · simp [h2, history_length]
  · simp [h3, history_length]
  · simp [h4, history_length]
  · simp [h5, history_length]
  · simp [h6, history_length]
  · simp [h7, history_length]

theorem C2_witness :
    WF reset_data ∧
    (update true sample_input reset_data).time =
      reset_data.time.drop 1 ++ [sample_input.sessionTime] :=
  ⟨by decide, (C2_fifo_step reset_data sample_input (by decide)).2.2.2.2.2.2.1⟩

/-- C3: at every tick (after initialization and after every `update()`,
connected or not), all seven rolling windows have equal length N = 200. -/
theorem C3_length_invariant (s : TelemetryState) (h : Reachable s) :
    s.throttle.length = 200 ∧ s.brake.length = 200 ∧ s.steer.length = 200 ∧
    s.speed.length = 200 ∧ s.gear.length = 200 ∧ s.distance.length = 200 ∧
    s.time.length = 200 :=
  reachable_wf s h

theorem C3_witness :
    (update true sample_input reset_data).throttle.length = 200 ∧
    (update true sample_input reset_data).brake.length = 200 ∧
    (update true sample_input reset_data).steer.length = 200 ∧
    (update true sample_input reset_data).speed.length = 200 ∧
    (update true sample_input reset_data).gear.length = 200 ∧
    (update true sample_input reset_data).distance.length = 200 ∧
    (update true sample_input reset_data).time.length = 200 :=
  C3_length_invariant _ (Reachable.conn _ _ Reachable.init)

/-- C4: on a connected update with dt = newTime − previousTime: if the
newly read speed is > 0, the newly appended distance equals the previous
distance plus newSpeed * dt; if the newly read speed is ≤ 0, the newly
appended distance equals the previous distance unchanged. -/
theorem C4_distance_step (s : TelemetryState) (inp : TelemetryInput)
    (h : WF s) :
    (0 < inp.speed →
      getLast (update true inp s).distance =
        getLast s.distance + inp.speed * (inp.sessionTime - getLast s.time)) ∧
    (inp.speed ≤ 0 →
      getLast (update true inp s).distance = getLast s.distance) := by
  rw [update_conn s inp h]
  simp only
  rw [getLast_append]
  constructor
  · intro hs
    rw [if_pos hs]
  · intro hs
    rw [if_neg (not_lt.mpr hs)]

theorem C4_witness :
    (getLast (update true sample_input reset_data).distance =
      getLast reset_data.distance +
        sample_input.speed *
          (sample_input.sessionTime - getLast reset_data.time)) ∧
    (getLast (update true stopped_input reset_data).distance =
      getLast reset_data.distance) :=
  ⟨(C4_distance_step reset_data sample_input (by decide)).1 (by decide),
   (C4_distance_step reset_data stopped_input (by decide)).2 (by decide)⟩

/-- C5: for all pairs of consecutive samples i, i+1 in the windows of a
reachable state (under the source's monotone session-time contract) with
speed[i+1] > 0, distance[i+1] ≥ distance[i]. -/
theorem C5_distance_monotone (s : TelemetryState) (h : ReachableMono s)
    (i : ℕ) (hi : i + 1 < 200) (hsp : 0 < nth s.speed (i + 1)) :
    nth s.distance i ≤ nth s.distance (i + 1) :=
  reachableMono_distance_mono s h i hi hsp

theorem C5_witness :
    0 < nth (update true moving_input reset_data).speed 199 ∧
    nth (update true moving_input reset_data).distance 198 ≤
      nth (update true moving_input reset_data).distance 199 :=
  ⟨by decide,
   C5_distance_monotone _
     (ReachableMono.conn _ _ ReachableMono.init (by decide))
     198 (by decide) (by decide)⟩

/-- C6, as stated, is false: on the very first connected update after a
reset, if the source reports a positive speed and a positive session time,
the appended distance is speed * time, not 0.  Concretely, speed 1 m/s at
session time 1 s appends distance 1. -/
theorem C6_counterexample :
    ¬ getLast (update true moving_input reset_data).distance = 0 := by
  rw [update_conn reset_data moving_input wf_reset]
  simp only
  rw [getLast_append]
  rw [if_pos (show (0 : ℚ) < moving_input.speed by norm_num [moving_input])]
  have hd : getLast reset_data.distance = 0 := getLast_replicate
  have ht : getLast reset_data.time = 0 := getLast_replicate
  rw [hd, ht]
  norm_num [moving_input]

/-- C6 (amended): on the very first connected `update()` after startup or a
disconnect reset, the newly appended distance builds on a previous distance
of 0 and a previous session time of 0: it equals newSpeed * newTime when
newSpeed > 0, and 0 otherwise.  In particular it is 0 whenever the speed is
non-positive or the new session time is 0. -/
theorem C6_first_update_distance (inp : TelemetryInput) :
    getLast (update true inp reset_data).distance =
      if 0 < inp.speed then inp.speed * inp.sessionTime else 0 := by
  rw [update_conn reset_data inp wf_reset]
  simp only
  rw [getLast_append]
  have hd : getLast reset_data.distance = 0 := by decide
  have ht : getLast reset_data.time = 0 := by decide
  rw [hd, ht]
  split
  · ring
  · rfl

/-- C7: the renderer's presentation transforms are: steer is remapped by
(steer + 1) * 0.5, so steer = −1 maps to 0 and steer = 1 maps to 1; speed
is remapped by speed / 83.33, so speed = 83.33 maps to 1; gear is remapped
by gear / 6.0, negative gears mapping below 0; throttle and brake are
displayed untransformed. -/
theorem C7_render_transforms (cfg : PlotConfig) (s : TelemetryState) :
    (cfg.throttle = true →
      (render cfg s).throttlePlot = some (s.distance, s.throttle)) ∧
    (cfg.brake = true →
      (render cfg s).brakePlot = some (s.distance, s.brake)) ∧
    (cfg.steer = true →
      (render cfg s).steerPlot =
        some (s.distance, s.steer.map steer_normalized)) ∧
    (cfg.speed = true →
      (render cfg s).speedPlot =
        some (s.distance, s.speed.map speed_normalized)) ∧
    (cfg.gear = true →
      (render cfg s).gearPlot =
        some (s.distance, s.gear.map gear_normalized)) ∧
    steer_normalized (-1) = 0 ∧
    steer_normalized 1 = 1 ∧
    speed_normalized 83.33 = 1 ∧
    (∀ g : ℚ, g < 0 → gear_normalized g < 0) := by
  refine ⟨?_, ?_, ?_, ?_, ?_, ?_, ?_, ?_, ?_⟩
  · intro hc
    simp [render, hc]
  · intro hc
    simp [render, hc]
  · intro hc
    simp [render, hc]
  · intro hc
    simp [render, hc]
  · intro hc
    simp [render, hc]
  · norm_num [steer_normalized]
  · norm_num [steer_normalized]
  · norm_num [speed_normalized]
  · intro g hg
    exact div_neg_of_neg_of_pos hg (by norm_num)

theorem C7_witness :
    (render allOn reset_data).steerPlot =
      some (reset_data.distance, reset_data.steer.map steer_normalized) ∧
    gear_normalized (-1) < 0 :=
  ⟨(C7_render_transforms allOn reset_data).2.2.1 rfl,
   (C7_render_transforms allOn reset_data).2.2.2.2.2.2.2.2 (-1) (by norm_num)⟩

/-- C8: the chart's x-axis limits are [0, 300] whenever the last distance
value is ≤ 150, and [distance[last] − 150, distance[last] + 150] whenever
the last distance value is > 150. -/
theorem C8_xaxis_window (cfg : PlotConfig) (s : TelemetryState) :
    (render cfg s).xlim = set_xlim s.distance ∧
    (getLast s.distance ≤ 150 → set_xlim s.distance = (0, 300)) ∧
    (150 < getLast s.distance →
      set_xlim s.distance =
        (getLast s.distance - 150, getLast s.distance + 150)) := by
  refine ⟨rfl, ?_, ?_⟩
  · intro h
    unfold set_xlim
    rw [if_neg (not_lt.mpr h)]
  · intro h
    unfold set_xlim
    rw [if_pos h]

theorem C8_witness :
    set_xlim reset_data.distance = (0, 300) ∧
    set_xlim far_state.distance =
      (getLast far_state.distance - 150, getLast far_state.distance + 150) :=
  ⟨(C8_xaxis_window allOn reset_data).2.1 (by decide),
   (C8_xaxis_window allOn far_state).2.2 (by decide)⟩

/-- C9: for any two runs of a tick that differ only in the states of the
five visibility checkboxes (telemetry readings and prior window state
equal), the sampler's seven rolling windows are identical after the tick:
the toggles never influence the sampled data. -/
theorem C9_toggles_never_influence_sampling (cfg1 cfg2 : PlotConfig)
    (connected : Bool) (inp : TelemetryInput) (s : TelemetryState) :
    (update_plot cfg1 connected inp s).1 =
      (update_plot cfg2 connected inp s).1 :=
  rfl

/-- C10: on a connected `update()` where the newly read session time equals
the previously stored session time (dt = 0), the newly appended distance
equals the previous distance, for every speed value — including speed > 0. -/
theorem C10_zero_dt_freezes_distance (s : TelemetryState)
    (inp : TelemetryInput) (h : WF s)
    (ht : inp.sessionTime = getLast s.time) :
    getLast (update true inp s).distance = getLast s.distance := by
  rw [update_conn s inp h]
  simp only
  rw [getLast_append]
  split
  · rw [ht]
    ring
  · rfl

theorem C10_witness :
    getLast (update true zero_dt_input reset_data).distance =
      getLast reset_data.distance :=
  C10_zero_dt_freezes_distance reset_data zero_dt_input (by decide) (by decide)

end TelemetryOverlay
